import Mathlib

/-!
# Verification of the neon cross-thread task scheduler and lifecycle core

Shallow embedding of the core of `crates/neon-runtime/src/napi/async_work.rs`
and `src/lifecycle.rs`:

* the task `State` machine (`Input → Executing → Output`) with its
  `take_execute_input` / `into_output` transitions;
* the effects of the completion trampoline `call_complete` and of the
  scheduler `schedule`, modelled as pure functions from the host-supplied
  completion/queueing status to a record of observable effects (native work
  handle deletions, task-record deallocations, user-callback invocations,
  fatal assertion failures);
* the lazily initialized per-instance data (`InstanceData::get`), the global
  instance-identifier allocator (`InstanceId::next`, a wrapping `u64`
  fetch-add), and the deferred-release function `DropData::drop`.

Machine integers are modelled as `Nat` with explicit reduction modulo `2^64`
where the source uses a `u64` atomic.
-/

/-- Host completion/queueing status (`napi::Status`).  The Node-API status
enum has further variants; the code under verification only ever
distinguishes `Ok`, `Cancelled` and a catch-all, so a representative subset
suffices. -/
inductive Status where
  | Ok
  | InvalidArg
  | ObjectExpected
  | GenericFailure
  | Cancelled
  | QueueFull
  | Closing
deriving DecidableEq, Repr

/-- State of the task that is transitioned by `execute` and `complete`
(enum `State<T, O>` in `async_work.rs`). -/
inductive State (T O : Type) where
  /-- Initial data input passed to `execute` -/
  | Input : T → State T O
  /-- Transient state while `execute` is running -/
  | Executing : State T O
  /-- Return data of `execute` passed to `complete` -/
  | Output : O → State T O
deriving DecidableEq, Repr

/-- `State::take_execute_input(&mut self) -> Option<T>`: the source performs
`mem::replace(self, Self::Executing)` and then matches on the old state, so
the stored state becomes `Executing` unconditionally and the input is
returned iff the old state was `Input`.  The Rust `&mut self` is modelled by
returning the pair (result, new state). -/
def State.take_execute_input (s : State T O) : Option T × State T O :=
  (match s with
    | .Input input => some input
    | _ => none,
   .Executing)

/-- `State::into_output(self) -> Option<O>`: consumes the record by value,
yielding the output iff the state is `Output`. -/
def State.into_output : State T O → Option O
  | .Output output => some output
  | _ => none

/-- Why a run of the completion trampoline aborted the process. -/
inductive FatalCause where
  /-- `state.into_output().unwrap()` failed: status was `Ok` but no output
  was stored. -/
  | missingOutput
  /-- the catch-all `assert_eq!(status, napi::Status::Ok)` in the wildcard
  arm: a completion status outside {`Ok`, `Cancelled`}. -/
  | badStatus
deriving DecidableEq, Repr

/-- Observable effects of one run of the completion trampoline
`call_complete`. -/
structure CompleteEffects (Env O : Type) where
  /-- number of times the `Box<Data<T, O>>` task record was reclaimed
  (`Box::from_raw` plus destructuring drop). -/
  record_free_calls : Nat
  /-- number of `napi::delete_async_work` calls (native work handle
  release). -/
  delete_work_calls : Nat
  /-- the invocations of the user `complete` function, each with the
  environment and output it received. -/
  complete_calls : List (Env × O)
  /-- `some cause` iff the run hit a fatal assertion/unwrap failure. -/
  fatal : Option FatalCause
deriving DecidableEq, Repr

/-- `call_complete(env, status, data)` from `async_work.rs`, as a pure
function of the delivered status and the task record state.  The source
first consumes the task record (`Box::from_raw` + destructuring), then
releases the native work handle (`napi::delete_async_work`), and only then
matches on the status:

* `Ok`: `complete(env, state.into_output().unwrap())` — fatal if no output;
* `Cancelled`: no user callback;
* anything else: `assert_eq!(status, napi::Status::Ok)` — fatal. -/
def call_complete (env : Env) (status : Status) (state : State T O) :
    CompleteEffects Env O :=
  match status with
  | .Ok =>
    match state.into_output with
    | some output =>
      { record_free_calls := 1, delete_work_calls := 1,
        complete_calls := [(env, output)], fatal := none }
    | none =>
      { record_free_calls := 1, delete_work_calls := 1,
        complete_calls := [], fatal := some .missingOutput }
  | .Cancelled =>
      { record_free_calls := 1, delete_work_calls := 1,
        complete_calls := [], fatal := none }
  | _ =>
      { record_free_calls := 1, delete_work_calls := 1,
        complete_calls := [], fatal := some .badStatus }

/-- Observable effects of one call of `schedule`. -/
structure ScheduleEffects where
  /-- the `Box<Data>` task record was allocated with state `Input(input)`. -/
  record_allocated : Bool
  /-- `napi::create_async_work` succeeded. -/
  work_created : Bool
  /-- the work was queued on the pool (`napi::queue_async_work` returned
  `Ok`). -/
  queued : Bool
  /-- number of `napi::delete_async_work` calls made by `schedule` itself. -/
  delete_work_calls : Nat
  /-- number of times `schedule` itself deallocated the task record.  The
  record is handed to the host via `Box::into_raw`, and on the failure paths
  no `Box::from_raw` ever reclaims it. -/
  record_free_calls : Nat
  /-- an `assert_eq!` failed: the failure is surfaced to the caller as a
  panic. -/
  fatal : Bool
deriving DecidableEq, Repr

/-- `schedule(env, input, execute, complete)` from `async_work.rs`, as a
pure function of the host status codes returned by
`napi::create_async_work` and `napi::queue_async_work`.  The source:

1. allocates `Box::new(Data { state: State::Input(input), .. })` and leaks
   it via `Box::into_raw` into the work's data pointer;
2. `assert_eq!(create_async_work(..), Status::Ok)` — fatal on failure;
3. `queue_async_work`: on `Ok` done; on any other status it calls
   `delete_async_work` (releasing the native handle) and then
   `assert_eq!(status, Status::Ok)` — fatal.  The leaked task record is not
   reclaimed on either failure path. -/
def schedule (create_status queue_status : Status) : ScheduleEffects :=
  match create_status with
  | .Ok =>
    match queue_status with
    | .Ok =>
      { record_allocated := true, work_created := true, queued := true,
        delete_work_calls := 0, record_free_calls := 0, fatal := false }
    | _ =>
      { record_allocated := true, work_created := true, queued := false,
        delete_work_calls := 1, record_free_calls := 0, fatal := true }
  | _ =>
      { record_allocated := true, work_created := false, queued := false,
        delete_work_calls := 0, record_free_calls := 0, fatal := true }

/-- `u64` modulus: the `NEXT_ID` counter in `lifecycle.rs` is an `AtomicU64`
and `fetch_add` wraps on overflow. -/
def U64_MOD : Nat := 2 ^ 64

/-- `InstanceId(u64)`: uniquely identifies an instance of the module
(`lifecycle.rs`). -/
structure InstanceId where
  val : Nat
deriving DecidableEq, Repr

/-- `InstanceId::next()`: `NEXT_ID.fetch_add(1, SeqCst)` returns the old
counter value as the new identifier and stores the wrapping successor.  The
process-global atomic is modelled by threading its current value `v`
explicitly. -/
def InstanceId.next (v : Nat) : InstanceId × Nat :=
  (⟨v⟩, (v + 1) % U64_MOD)

/-- Value of the `NEXT_ID` atomic after `n` allocations, starting from the
initial value `0`. -/
def idStateAfter : Nat → Nat
  | 0 => 0
  | n + 1 => (InstanceId.next (idStateAfter n)).2

/-- The identifier handed out by the `n`-th (0-based) call of
`InstanceId::next` in the process. -/
def nthInstanceId (n : Nat) : InstanceId :=
  (InstanceId.next (idStateAfter n)).1

/-- Identity of the allocation behind an
`Arc<ThreadsafeFunction<DropData>>`; two handles are reference-equal iff
they carry the same allocation identity. -/
structure TsfnHandle where
  alloc : Nat
deriving DecidableEq, Repr

/-- `InstanceData` from `lifecycle.rs`: the per-instance record holding the
instance identifier and the deferred-release queue handle.  (The
`channel-api`-gated `shared_channel` field plays no role in the claims and
is omitted.) -/
structure InstanceData where
  id : InstanceId
  drop_queue : TsfnHandle
deriving DecidableEq, Repr

/-- The state `InstanceData::get` reads and writes: the process-global
`NEXT_ID` counter, a supply of fresh allocation identities for
`ThreadsafeFunction::new`, the host's per-instance data slot
(`get_instance_data`/`set_instance_data`), and a ghost counter of how many
times the lazy-initialization path ran. -/
structure LifecycleState where
  next_id : Nat
  next_alloc : Nat
  slot : Option InstanceData
  init_runs : Nat
deriving DecidableEq, Repr

/-- `InstanceData::get(cx)` from `lifecycle.rs`: returns the installed data
if the host slot is occupied; otherwise creates the drop queue
(`ThreadsafeFunction::new` then `unref`), allocates the identifier via
`InstanceId::next()`, and installs the new record with
`set_instance_data`. -/
def InstanceData.get (st : LifecycleState) : InstanceData × LifecycleState :=
  match st.slot with
  | some data => (data, st)
  | none =>
    let queue : TsfnHandle := ⟨st.next_alloc⟩
    let (id, next_id) := InstanceId.next st.next_id
    let data : InstanceData := { id := id, drop_queue := queue }
    (data,
     { next_id := next_id, next_alloc := st.next_alloc + 1,
       slot := some data, init_runs := st.init_runs + 1 })

/-- `InstanceData::drop_queue(cx)`: `Arc::clone` of the `drop_queue` field
of `InstanceData::get(cx)` — a handle to the same allocation. -/
def InstanceData.drop_queue_getter (st : LifecycleState) :
    TsfnHandle × LifecycleState :=
  ((InstanceData.get st).1.drop_queue, (InstanceData.get st).2)

/-- `n` successive calls of `InstanceData::get`, keeping only the state. -/
def getN : Nat → LifecycleState → LifecycleState
  | 0, st => st
  | n + 1, st => (InstanceData.get (getN n st)).2

/-- `DropData` from `lifecycle.rs`: wrapper for raw Node-API values to be
dropped on the main thread.  `D` stands for the `NodeApiDeferred` payload
and `R` for the `NapiRef` payload. -/
inductive DropData (D R : Type) where
  | Deferred : D → DropData D R
  | Ref : R → DropData D R
deriving DecidableEq, Repr

/-- Release actions `DropData::drop` can perform on the owning thread. -/
inductive ReleaseEffect (Env D R : Type) where
  /-- `NodeApiDeferred::leaked(env)`: mark a deferred promise handle as
  abandoned. -/
  | leaked : Env → D → ReleaseEffect Env D R
  /-- `NapiRef::unref(env)`: release a reference into the environment's
  object graph. -/
  | unref : Env → R → ReleaseEffect Env D R
deriving DecidableEq, Repr

/-- `DropData::drop(env, data)` from `lifecycle.rs`: `if let Some(env) =
env { match data { Deferred(d) => d.leaked(env), Ref(r) => r.unref(env) } }`.
The returned list records the release actions performed; an empty list is a
no-op, and the function has no failure channel. -/
def DropData.drop (env : Option Env) (data : DropData D R) :
    List (ReleaseEffect Env D R) :=
  match env with
  | some env =>
    match data with
    | .Deferred d => [.leaked env d]
    | .Ref r => [.unref env r]
  | none => []

/-! ## Helper lemmas (shared across claims) -/

/-- After any `InstanceData::get`, the host slot holds exactly the returned
data. -/
theorem InstanceData.get_installed (st : LifecycleState) :
    (InstanceData.get st).2.slot = some (InstanceData.get st).1 := by
  cases h : st.slot <;> simp [InstanceData.get, h, InstanceId.next]

/-- `InstanceData::get` on a state whose slot is already occupied returns
the installed data and leaves the state unchanged. -/
theorem InstanceData.get_stable (st : LifecycleState) (d : InstanceData)
    (h : st.slot = some d) : InstanceData.get st = (d, st) := by
  simp [InstanceData.get, h]

/-- Any number of further `InstanceData::get` calls after the first leave
the state unchanged. -/
theorem getN_stable (st : LifecycleState) (n : Nat) :
    getN n (InstanceData.get st).2 = (InstanceData.get st).2 := by
  induction n with
  | zero => rfl
  | succ n ih =>
    rw [getN, ih, InstanceData.get_stable _ _ (InstanceData.get_installed st)]

/-- One `InstanceData::get` call increments the ghost initialization
counter at most once. -/
theorem InstanceData.get_init_runs_le (st : LifecycleState) :
    (InstanceData.get st).2.init_runs ≤ st.init_runs + 1 := by
  cases h : st.slot <;> simp [InstanceData.get, h, InstanceId.next]

/-- The `NEXT_ID` counter after `n` allocations from `0` is `n` reduced
modulo `2^64`. -/
theorem idStateAfter_eq (n : Nat) : idStateAfter n = n % U64_MOD := by
  induction n with
  | zero => rfl
  | succ n ih =>
    simp only [idStateAfter, InstanceId.next, ih]
    conv_rhs => rw [Nat.add_mod]
    norm_num [U64_MOD]

/-- The `n`-th allocated identifier carries the value `n % 2^64`. -/
theorem nthInstanceId_eq (n : Nat) : nthInstanceId n = ⟨n % U64_MOD⟩ := by
  simp [nthInstanceId, idStateAfter_eq, InstanceId.next]

/-! ## Claims -/

/-- C1: when the completion trampoline runs with status `Ok`, the user
`complete` function is invoked exactly once with the environment and the
output yielded by `into_output` (and the run is non-fatal exactly when
`into_output` succeeded — a failure is fatal and then no callback runs);
with status `Cancelled`, no user callback is invoked at all. -/
theorem call_complete_ok_delivery {Env T O : Type} (env : Env) (s : State T O) :
    ((call_complete env Status.Ok s).complete_calls
        = (s.into_output.map fun output => (env, output)).toList
      ∧ ((call_complete env Status.Ok s).fatal = none ↔ s.into_output.isSome = true))
    ∧ ((call_complete env Status.Cancelled s).complete_calls = []
      ∧ (call_complete env Status.Cancelled s).fatal = none) := by
  cases s <;> simp [call_complete, State.into_output]

/-- C1 witness: trampoline run at status `Ok` on a record holding output
`42`, and at status `Cancelled` on the same record. -/
theorem call_complete_ok_delivery_witness :
    (((call_complete (0 : Nat) Status.Ok (State.Output 42 : State Nat Nat)).complete_calls
        = ((State.Output 42 : State Nat Nat).into_output.map fun output => ((0 : Nat), output)).toList
      ∧ ((call_complete (0 : Nat) Status.Ok (State.Output 42 : State Nat Nat)).fatal = none
          ↔ (State.Output 42 : State Nat Nat).into_output.isSome = true))
    ∧ ((call_complete (0 : Nat) Status.Cancelled (State.Output 42 : State Nat Nat)).complete_calls = []
      ∧ (call_complete (0 : Nat) Status.Cancelled (State.Output 42 : State Nat Nat)).fatal = none)) :=
  call_complete_ok_delivery 0 (State.Output 42)

/-- C2: every run of the completion trampoline, whatever the delivered
status and whatever the record state, releases the native work handle
exactly once and consumes/frees the task record exactly once — the single
reclamation point, with no leak and no double-free. -/
theorem call_complete_single_reclamation {Env T O : Type} (env : Env)
    (status : Status) (s : State T O) :
    (call_complete env status s).delete_work_calls = 1
    ∧ (call_complete env status s).record_free_calls = 1 := by
  cases status <;> cases s <;> simp [call_complete, State.into_output]

/-- C3: `take_execute_input` on `Input(t)` returns `t` and leaves the state
`Executing`; on `Executing` or `Output` it returns nothing. -/
theorem take_execute_input_transitions {T O : Type} (t : T) (o : O) :
    (State.Input t : State T O).take_execute_input = (some t, State.Executing)
    ∧ (State.Executing : State T O).take_execute_input.1 = none
    ∧ (State.Output o : State T O).take_execute_input.1 = none :=
  ⟨rfl, rfl, rfl⟩

/-- C4: double-consumption is impossible — after any `take_execute_input`
the state is `Executing`, so a second call returns nothing; `into_output`
yields the output exactly when the state is `Output`, and after a take it
yields nothing. -/
theorem state_no_double_consumption {T O : Type} (s : State T O) :
    (s.take_execute_input.2).take_execute_input.1 = none
    ∧ s.take_execute_input.2 = State.Executing
    ∧ (∀ o : O, s.into_output = some o ↔ s = State.Output o)
    ∧ (s.take_execute_input.2).into_output = none := by
  cases s <;> simp [State.take_execute_input, State.into_output]

/-- C4 witness: the transitions evaluated on the concrete record state
`Input 7`. -/
theorem state_no_double_consumption_witness :
    (((State.Input 7 : State Nat Nat).take_execute_input.2).take_execute_input.1 = none
    ∧ (State.Input 7 : State Nat Nat).take_execute_input.2 = State.Executing
    ∧ (∀ o : Nat, (State.Input 7 : State Nat Nat).into_output = some o
        ↔ (State.Input 7 : State Nat Nat) = State.Output o)
    ∧ ((State.Input 7 : State Nat Nat).take_execute_input.2).into_output = none) :=
  state_no_double_consumption (State.Input 7)

/-- C5 counterexample: when queuing is rejected (here with status
`QueueFull` after a successful create), `schedule` deletes the native work
handle and panics, but never deallocates the task record it leaked through
`Box::into_raw` — `record_free_calls = 0`, contradicting the claim that
the Task Record is released rather than leaked. -/
theorem schedule_queue_failure_leaks_record :
    (schedule Status.Ok Status.QueueFull).fatal = true
    ∧ (schedule Status.Ok Status.QueueFull).delete_work_calls = 1
    ∧ (schedule Status.Ok Status.QueueFull).record_free_calls = 0 := by
  decide

/-- C5 (amended): if the host rejects queuing at submission time,
`schedule` releases the native work handle exactly once and surfaces the
failure to the caller as a fatal condition (a panic), without queuing the
work; the Task Record itself is not freed at this point — it is leaked,
the fatal termination making the leak moot. -/
theorem schedule_queue_failure_releases_handle (qs : Status)
    (h : qs ≠ Status.Ok) :
    (schedule Status.Ok qs).delete_work_calls = 1
    ∧ (schedule Status.Ok qs).record_free_calls = 0
    ∧ (schedule Status.Ok qs).queued = false
    ∧ (schedule Status.Ok qs).fatal = true := by
  cases qs <;> first
    | exact absurd rfl h
    | decide

/-- C5 witness: the amended behaviour at the concrete rejection status
`GenericFailure`. -/
theorem schedule_queue_failure_releases_handle_witness :
    ((schedule Status.Ok Status.GenericFailure).delete_work_calls = 1
    ∧ (schedule Status.Ok Status.GenericFailure).record_free_calls = 0
    ∧ (schedule Status.Ok Status.GenericFailure).queued = false
    ∧ (schedule Status.Ok Status.GenericFailure).fatal = true) :=
  schedule_queue_failure_releases_handle Status.GenericFailure (by decide)

/-- C6: any completion status outside {`Ok`, `Cancelled`} makes the
trampoline fail the catch-all assertion (fatal, cause `badStatus`); when
the host delivers only `Ok` or `Cancelled`, that fatal branch is never
taken. -/
theorem call_complete_bad_status_fatal {Env T O : Type} (env : Env)
    (s : State T O) (status : Status) :
    (status ≠ Status.Ok ∧ status ≠ Status.Cancelled →
      (call_complete env status s).fatal = some FatalCause.badStatus)
    ∧ (status = Status.Ok ∨ status = Status.Cancelled →
      (call_complete env status s).fatal ≠ some FatalCause.badStatus) := by
  cases status <;> cases s <;> simp [call_complete, State.into_output]

/-- C6 witness: the fatal branch taken at the concrete status
`GenericFailure` and not taken at `Cancelled`. -/
theorem call_complete_bad_status_fatal_witness :
    (call_complete (0 : Nat) Status.GenericFailure (State.Executing : State Nat Nat)).fatal
        = some FatalCause.badStatus
    ∧ (call_complete (0 : Nat) Status.Cancelled (State.Executing : State Nat Nat)).fatal
        ≠ some FatalCause.badStatus :=
  ⟨(call_complete_bad_status_fatal 0 State.Executing Status.GenericFailure).1
      (by decide),
   (call_complete_bad_status_fatal 0 State.Executing Status.Cancelled).2
      (Or.inr rfl)⟩

/-- C7: after one `InstanceData::get`, any number of further calls return
the already-installed record — same data, same identifier, the
reference-equal drop-queue handle — without touching the state, and the
lazy-initialization path has run at most once. -/
theorem instance_data_get_idempotent (st : LifecycleState) (n : Nat) :
    (InstanceData.get (getN n (InstanceData.get st).2)).1 = (InstanceData.get st).1
    ∧ getN n (InstanceData.get st).2 = (InstanceData.get st).2
    ∧ (InstanceData.get (getN n (InstanceData.get st).2)).1.id = (InstanceData.get st).1.id
    ∧ (InstanceData.get (getN n (InstanceData.get st).2)).1.drop_queue
        = (InstanceData.get st).1.drop_queue
    ∧ (InstanceData.drop_queue_getter (getN n (InstanceData.get st).2)).1
        = (InstanceData.get st).1.drop_queue
    ∧ (getN n (InstanceData.get st).2).init_runs ≤ st.init_runs + 1 := by
  have hstab := getN_stable st n
  have hget := InstanceData.get_stable _ _ (InstanceData.get_installed st)
  rw [hstab, hget]
  refine ⟨rfl, rfl, rfl, rfl, ?_, InstanceData.get_init_runs_le st⟩
  rw [InstanceData.drop_queue_getter, hget]

/-- C8: the release function `DropData::drop` is a no-op (no release
action, no escalation) when delivered without an environment, and with an
environment it releases exactly the carried resource — leak-marking for a
deferred promise handle, unref for a reference. -/
theorem drop_data_release_behavior {E D R : Type} (env : E) (d : D) (r : R)
    (data : DropData D R) :
    DropData.drop (none : Option E) data = []
    ∧ DropData.drop (some env) (DropData.Deferred d : DropData D R)
        = [ReleaseEffect.leaked env d]
    ∧ DropData.drop (some env) (DropData.Ref r : DropData D R)
        = [ReleaseEffect.unref env r] :=
  ⟨rfl, rfl, rfl⟩

/-- C9 counterexample: the `NEXT_ID` fetch-add wraps modulo `2^64`, so the
allocation number `2^64` hands out the same identifier as allocation `0` —
two distinct allocations with equal identifiers. -/
theorem instance_id_wraparound :
    nthInstanceId (2 ^ 64) = nthInstanceId 0 ∧ (2 ^ 64 : Nat) ≠ 0 := by
  constructor
  · rw [nthInstanceId_eq, nthInstanceId_eq]
    norm_num [U64_MOD]
  · norm_num

/-- C9 (amended): as long as fewer than `2^64` identifiers have been
allocated, allocations yield pairwise-distinct identifiers in strictly
increasing order of allocation. -/
theorem instance_ids_distinct_monotone (m n : Nat) (h1 : m < n)
    (h2 : n < U64_MOD) :
    (nthInstanceId m).val < (nthInstanceId n).val
    ∧ nthInstanceId m ≠ nthInstanceId n := by
  rw [nthInstanceId_eq, nthInstanceId_eq,
      Nat.mod_eq_of_lt (h1.trans h2), Nat.mod_eq_of_lt h2]
  refine ⟨h1, ?_⟩
  simp only [ne_eq, InstanceId.mk.injEq]
  omega

/-- C9 witness: the amended statement at the first two allocations. -/
theorem instance_ids_distinct_monotone_witness :
    ((nthInstanceId 0).val < (nthInstanceId 1).val
    ∧ nthInstanceId 0 ≠ nthInstanceId 1) :=
  instance_ids_distinct_monotone 0 1 (by norm_num) (by norm_num [U64_MOD])

/-- C10: `take_execute_input` leaves the record in state `Executing` from
every starting state; called on `Output(o)` it silently discards the stored
output, after which `into_output` yields nothing. -/
theorem take_execute_input_always_executing {T O : Type} (s : State T O) (o : O) :
    s.take_execute_input.2 = State.Executing
    ∧ (State.Output o : State T O).take_execute_input.1 = none
    ∧ ((State.Output o : State T O).take_execute_input.2).into_output = none := by
  cases s <;> exact ⟨rfl, rfl, rfl⟩
